import Mathlib

/-!
Verification development for the gym-auv simulation core.

The Python source is shallowly embedded over the rationals.  Machine reals
are modelled as exact rationals; the transcendental primitives the source
draws from numpy (pi, sin, cos, arctan2, sqrt) are gathered in a `RealOps`
parameter block, so every theorem quantifies over them unless it needs one
of their defining properties, which is then taken as an explicit hypothesis.
The scipy curve-fitting pipeline (pchip interpolation plus the fminbound
closest-point search) is represented by an opaque curve-fitting oracle: the
environment code only ever queries the fitted curve through its pure method
surface (position, derivative, length, closest arclength), which is exactly
the `PathObj` record below.
-/

/-- The transcendental primitives used by the source (numpy pi, sin, cos,
arctan2, sqrt), abstracted as parameters over the rationals. -/
structure RealOps where
  pi : ℚ
  sin : ℚ → ℚ
  cos : ℚ → ℚ
  atan2 : ℚ → ℚ → ℚ
  sqrt : ℚ → ℚ

/-- numpy clip: clip x to the interval from lo to hi. -/
def np_clip (x lo hi : ℚ) : ℚ := min (max x lo) hi

/-- Modelled from the spec: `gym_auv.utils.geomutils.princip` is not under
src/; spec section 4.1 specifies `wrapToPrincipal(angle)` mapping any real
angle to the half-open interval from -pi (exclusive) to pi (inclusive).
This is realised by subtracting the right multiple of 2 pi. -/
def princip (ops : RealOps) (theta : ℚ) : ℚ :=
  theta - 2 * ops.pi * (Int.ceil ((theta - ops.pi) / (2 * ops.pi)) : ℚ)

/-- A 3-component column vector, used for poses and body velocities. -/
structure V3 where
  x : ℚ
  y : ℚ
  z : ℚ
deriving DecidableEq

def V3.add (a b : V3) : V3 := ⟨a.x + b.x, a.y + b.y, a.z + b.z⟩

def V3.sub (a b : V3) : V3 := ⟨a.x - b.x, a.y - b.y, a.z - b.z⟩

def V3.smul (c : ℚ) (a : V3) : V3 := ⟨c * a.x, c * a.y, c * a.z⟩

/-- Modelled from the spec: `gym_auv.utils.geomutils.Rzyx` is not under
src/; spec section 4.1 specifies a rotation about the vertical axis.  The
source always calls it as `Rzyx(0, 0, angle)`, i.e. a pure z-rotation,
embedded here as its action on a 3-vector. -/
def Rzyx (ops : RealOps) (angle : ℚ) (v : V3) : V3 :=
  ⟨ops.cos angle * v.x - ops.sin angle * v.y,
   ops.sin angle * v.x + ops.cos angle * v.y,
   v.z⟩

/-- Basic bounds for np_clip. -/
theorem np_clip_mem (x lo hi : ℚ) (h : lo ≤ hi) :
    lo ≤ np_clip x lo hi ∧ np_clip x lo hi ≤ hi := by
  unfold np_clip
  constructor
  · exact le_min (le_max_right x lo) h
  · exact min_le_right _ _

theorem princip_mem (ops : RealOps) (theta : ℚ) (hpi : 0 < ops.pi) :
    -ops.pi < princip ops theta ∧ princip ops theta ≤ ops.pi := by
  unfold princip
  have h2 : (0:ℚ) < 2 * ops.pi := by linarith
  set a : ℚ := (theta - ops.pi) / (2 * ops.pi) with ha
  set k : ℚ := (Int.ceil a : ℚ) with hk
  have hge : a ≤ k := Int.le_ceil a
  have hlt : k < a + 1 := Int.ceil_lt_add_one a
  have hmul : a * (2 * ops.pi) = theta - ops.pi := by
    rw [ha]; field_simp
  constructor
  · nlinarith [mul_pos (by linarith : (0:ℚ) < a + 1 - k) h2]
  · nlinarith [mul_nonneg (by linarith : (0:ℚ) ≤ k - a) (le_of_lt h2)]

theorem princip_periodic (ops : RealOps) (theta : ℚ) (hpi : 0 < ops.pi) :
    princip ops (theta + 2 * ops.pi) = princip ops theta := by
  unfold princip
  have h2 : (2 * ops.pi) ≠ 0 := by positivity
  have harg : (theta + 2 * ops.pi - ops.pi) / (2 * ops.pi) =
      (theta - ops.pi) / (2 * ops.pi) + 1 := by
    field_simp
    ring
  rw [harg, Int.ceil_add_one]
  push_cast
  ring

/-- static circular obstacle. Modelled from the spec: the module
gym_auv.objects.obstacles (class StaticObstacle) is not under src/; spec
sections 3 and 4.4 specify an immutable position and radius only. -/
structure Obstacle where
  position : ℚ × ℚ
  radius : ℚ
deriving DecidableEq

/-- Modelled from the spec: gym_auv.utils.constants is not under src/.
Spec section 4.3 specifies a constant invertible mass matrix M (embedded
through the application of its inverse), actuator-force map B, damping D,
Coriolis C and linear correction L, all evaluated at the current body
velocity, together with thrust and rudder bounds and a constant maximum
speed.  Matrices are embedded as their application maps. -/
structure Consts where
  MAX_SPEED : ℚ
  THRUST_MIN_AUV : ℚ
  THRUST_MAX_AUV : ℚ
  RUDDER_MAX_AUV : ℚ
  M_inv : V3 → V3
  B : V3 → (ℚ × ℚ) → V3
  D : V3 → V3 → V3
  C : V3 → V3 → V3
  L : V3 → V3 → V3

/-- gym_auv.objects.auv._surge: clip the propeller input to the unit
interval and map it linearly into the physical thrust range. -/
def surgeMap (c : Consts) (surge : ℚ) : ℚ :=
  np_clip surge 0 1 * (c.THRUST_MAX_AUV - c.THRUST_MIN_AUV) + c.THRUST_MIN_AUV

/-- gym_auv.objects.auv._steer: clip the rudder position to the symmetric
unit interval and scale it by the maximal rudder angle. -/
def steerMap (c : Consts) (steer : ℚ) : ℚ :=
  np_clip steer (-1) 1 * c.RUDDER_MAX_AUV

/-- gym_auv.objects.auv.AUV2D: state is the pose (x, y, psi) paired with
the body velocity (u, v, r); histories of states and applied inputs are
append-only lists.  The class docstring documents the attribute `radius`
(the maximal distance from the center of the AUV to its edge); the
constructor stores that quantity under the name `width`. -/
structure AUV2D where
  state : V3 × V3
  prev_states : List (V3 × V3)
  width : ℚ
  t_step : ℚ
  input : ℚ × ℚ
  prev_inputs : List (ℚ × ℚ)
deriving DecidableEq

/-- AUV2D.__init__ with `init_pos = [x, y, psi]` and width defaulting
to 4 at every call site in src/. -/
def AUV2D.init (t_step : ℚ) (pos : ℚ × ℚ) (psi : ℚ) (width : ℚ) : AUV2D :=
  { state := (⟨pos.1, pos.2, psi⟩, ⟨0, 0, 0⟩)
    prev_states := [(⟨pos.1, pos.2, psi⟩, ⟨0, 0, 0⟩)]
    width := width
    t_step := t_step
    input := (0, 0)
    prev_inputs := [(0, 0)] }

def AUV2D.position (v : AUV2D) : ℚ × ℚ := (v.state.1.x, v.state.1.y)

def AUV2D.heading (v : AUV2D) : ℚ := v.state.1.z

def AUV2D.velocity (v : AUV2D) : ℚ × ℚ := (v.state.2.x, v.state.2.y)

/-- The value the environment intends when it reads `self.vessel.radius`.
The source class defines NO such attribute: AUV2D.__init__ stores the
documented quantity (the maximal distance from the center of the AUV to
its edge, per the class docstring) only under the name `width`, so the
read at auv_env.py line 238 raises AttributeError at run time - that error
is modelled faithfully in processObstacleRun and AUVEnv.observe below.
This definition supplies the docstring-intended value and is used only in
processObstacle, the documented-behavior loop body, never by observe. -/
def AUV2D.radius (v : AUV2D) : ℚ := v.width

def AUV2D.max_speed (c : Consts) : ℚ := c.MAX_SPEED

/-- AUV2D._sim: forward-Euler integration of the pose and velocity, with
the heading re-wrapped to the principal range afterwards. -/
def AUV2D.sim (ops : RealOps) (c : Consts) (v : AUV2D) : AUV2D :=
  let psi := v.state.1.z
  let nu := v.state.2
  let eta_dot := Rzyx ops (princip ops psi) nu
  let nu_dot := c.M_inv ((((c.B nu v.input).sub (c.D nu nu)).sub (c.C nu nu)).sub (c.L nu nu))
  let eta1 := v.state.1.add (V3.smul v.t_step eta_dot)
  let nu1 := v.state.2.add (V3.smul v.t_step nu_dot)
  let eta2 : V3 := ⟨eta1.x, eta1.y, princip ops eta1.z⟩
  { v with state := (eta2, nu1) }

/-- AUV2D.step: map the raw action through _surge and _steer, simulate one
timestep, and append the new state and applied input to the histories. -/
def AUV2D.step (ops : RealOps) (c : Consts) (v : AUV2D) (action : ℚ × ℚ) : AUV2D :=
  let v1 := { v with input := (surgeMap c action.1, steerMap c action.2) }
  let v2 := AUV2D.sim ops c v1
  { v2 with prev_states := v2.prev_states ++ [v2.state]
            prev_inputs := v2.prev_inputs ++ [v2.input] }

/-- Iterated dynamics: apply AUV2D.step to a sequence of actions. -/
def AUV2D.stepN (ops : RealOps) (c : Consts) (v : AUV2D) (actions : List (ℚ × ℚ)) : AUV2D :=
  actions.foldl (AUV2D.step ops c) v

/-- The fitted parametric curve (gym_auv.objects.path.ParamCurve), embedded
through its pure query surface: the scipy pchip interpolant and its
derivative become position and derivative functions, s_max = length is the
total fitted arc length, and the fminbound closest-point search becomes the
closest-arclength oracle. -/
structure PathObj where
  path_coords : ℚ → ℚ × ℚ
  path_derivatives : ℚ → ℚ × ℚ
  length : ℚ
  closest : ℚ × ℚ → ℚ

/-- ParamCurve.__call__. -/
def PathObj.call (p : PathObj) (s : ℚ) : ℚ × ℚ := p.path_coords s

/-- ParamCurve.get_direction: arctangent of the derivative components. -/
def PathObj.get_direction (ops : RealOps) (p : PathObj) (s : ℚ) : ℚ :=
  ops.atan2 (p.path_derivatives s).2 (p.path_derivatives s).1

/-- ParamCurve.get_endpoint: the position at s_max = length. -/
def PathObj.get_endpoint (p : PathObj) : ℚ × ℚ := p.path_coords p.length

/-- ParamCurve.get_closest_arclength: the fminbound search, queried as a
pure oracle. -/
def PathObj.get_closest_arclength (p : PathObj) (pos : ℚ × ℚ) : ℚ := p.closest pos

/-- The scipy fitting pipeline of ParamCurve.__init__ (three passes of
pchip fitting and resampling over cumulative arc length), embedded as an
opaque oracle from the waypoint list to the fitted curve object. -/
structure SciPy where
  paramCurve : List (ℚ × ℚ) → PathObj

/-- The numpy RandomState stream: a seeded sequence of draws in the unit
interval together with a cursor. -/
structure RNG where
  seq : ℕ → ℚ
  idx : ℕ

/-- One draw of np_random.rand(). -/
def RNG.rand (r : RNG) : ℚ × RNG := (r.seq r.idx, { r with idx := r.idx + 1 })

/-- The configuration dictionary: one optional entry per recognized key, a
missing entry raising the corresponding KeyError when first read. -/
structure Config where
  reward_ds : Option ℚ
  reward_closeness : Option ℚ
  reward_surge_error : Option ℚ
  reward_cross_track_error : Option ℚ
  reward_collision : Option ℚ
  nobstacles : Option ℕ
  los_dist : Option ℚ
  obst_range : Option ℚ
  t_step : Option ℚ
  cruise_speed : Option ℚ

/-- Reading key `name` from the configuration dictionary. -/
def getKey {α : Type} (entry : Option α) (name : String) : Except String α :=
  match entry with
  | some v => Except.ok v
  | none => Except.error ("KeyError: " ++ name)

/-- The mutable attributes of AUVEnv during an episode. -/
structure Env where
  config : Config
  vessel : AUV2D
  path : PathObj
  np_random : RNG
  obstacles : List Obstacle
  reward : ℚ
  path_prog : ℚ
  last_action : ℚ × ℚ

def nstates : ℕ := 6

def nsectors : ℕ := 8

/-- The vector from the vessel to the obstacle, rotated into the
vehicle-heading-aligned frame (AUVEnv.observe, obstacle loop). -/
def dvecCalc (ops : RealOps) (v : AUV2D) (o : Obstacle) : V3 :=
  Rzyx ops (-(AUV2D.heading v))
    ⟨o.position.1 - (AUV2D.position v).1, o.position.2 - (AUV2D.position v).2, 0⟩

/-- np.linalg.norm of the rotated difference vector. -/
def distCalc (ops : RealOps) (v : AUV2D) (o : Obstacle) : ℚ :=
  ops.sqrt ((dvecCalc ops v o).x ^ 2 + (dvecCalc ops v o).y ^ 2 + (dvecCalc ops v o).z ^ 2)

/-- The bearing of the obstacle, wrapped to the principal range and
remapped into the unit interval (AUVEnv.observe, obstacle loop). -/
def angCalc (ops : RealOps) (v : AUV2D) (o : Obstacle) : ℚ :=
  (princip ops (ops.atan2 (dvecCalc ops v o).y (dvecCalc ops v o).x) + ops.pi) / (2 * ops.pi)

/-- The closeness the expression at auv_env.py lines 238-240 is written to
compute, with the vessel radius taken as the documented width.  In the
source this expression never produces a value: its read of
self.vessel.radius raises AttributeError (see processObstacleRun). -/
def closenessCalc (ops : RealOps) (obst_range : ℚ) (v : AUV2D) (o : Obstacle) : ℚ :=
  1 - np_clip ((distCalc ops v o - AUV2D.radius v - o.radius) / obst_range) 0 1

/-- The observation index written for an obstacle with remapped bearing
ang: nstates plus the sector bucket floor(ang * nsectors). -/
def isectorCalc (ang : ℚ) : ℕ :=
  nstates + (Int.floor (ang * (nsectors : ℚ))).toNat

/-- One iteration of the obstacle loop of AUVEnv.observe as DOCUMENTED
(with the radius attribute backed by width): skip the obstacle unless its
distance is inside the detection range and its remapped bearing lies in
the unit half-open interval, and otherwise raise the bucketed sector
channel to the closeness if it is larger.  This documented-behavior body
is used to analyse the range and bearing guards and the sector index,
which the source decides before reaching the faulty radius read; the loop
body as actually executed is processObstacleRun below, and observe uses
only that one. -/
def processObstacle (ops : RealOps) (obst_range : ℚ) (v : AUV2D)
    (obs : List ℚ) (o : Obstacle) : List ℚ :=
  if distCalc ops v o < obst_range + o.radius then
    if 0 ≤ angCalc ops v o ∧ angCalc ops v o < 1 then
      if obs.getD (isectorCalc (angCalc ops v o)) 0 < closenessCalc ops obst_range v o then
        obs.set (isectorCalc (angCalc ops v o)) (closenessCalc ops obst_range v o)
      else obs
    else obs
  else obs

/-- The AttributeError raised at the closeness computation: observe reads
self.vessel.radius (auv_env.py line 238) but the AUV2D class defines no
radius attribute, only width. -/
def attributeErrorRadius : String :=
  "AttributeError: AUV2D object has no attribute radius"

/-- One iteration of the obstacle loop of AUVEnv.observe as the source
EXECUTES it: an obstacle inside the detection range whose remapped bearing
passes the unit-interval guard reaches the closeness computation, whose
read of self.vessel.radius raises AttributeError; any other obstacle
leaves the observation unchanged (the sector write is unreachable). -/
def processObstacleRun (ops : RealOps) (obst_range : ℚ) (v : AUV2D)
    (obs : List ℚ) (o : Obstacle) : Except String (List ℚ) :=
  if distCalc ops v o < obst_range + o.radius then
    if 0 ≤ angCalc ops v o ∧ angCalc ops v o < 1 then
      Except.error attributeErrorRadius
    else Except.ok obs
  else Except.ok obs

/-- The obstacle loop of AUVEnv.observe, iterating processObstacleRun and
propagating its AttributeError. -/
def obstacleLoop (ops : RealOps) (obst_range : ℚ) (v : AUV2D) :
    List Obstacle → List ℚ → Except String (List ℚ)
  | [], obs => Except.ok obs
  | o :: rest, obs =>
    match processObstacleRun ops obst_range v obs o with
    | Except.error e => Except.error e
    | Except.ok obs1 => obstacleLoop ops obst_range v rest obs1

/-- The first six observation channels of AUVEnv.observe, written into a
zero vector of length nstates + nsectors. -/
def baseObs (ops : RealOps) (c : Consts) (env : Env) (los_dist : ℚ) : List ℚ :=
  let path_direction := PathObj.get_direction ops env.path env.path_prog
  let target_heading := PathObj.get_direction ops env.path (env.path_prog + los_dist)
  let heading_error := princip ops (target_heading - AUV2D.heading env.vessel)
  let pd := PathObj.call env.path env.path_prog
  let cross_track_error :=
    (Rzyx ops (-path_direction)
      ⟨pd.1 - (AUV2D.position env.vessel).1, pd.2 - (AUV2D.position env.vessel).2, 0⟩).y
  ((((((List.replicate (nstates + nsectors) (0:ℚ)
    ).set 0 (np_clip ((AUV2D.velocity env.vessel).1 / AUV2D.max_speed c) 0 1)
    ).set 1 (np_clip ((AUV2D.velocity env.vessel).2 / (1/5)) (-1) 1)
    ).set 2 (np_clip (heading_error / ops.pi) (-1) 1)
    ).set 3 (np_clip (cross_track_error / los_dist) (-1) 1)
    ).set 4 (np_clip env.last_action.1 0 1)
    ).set 5 (np_clip env.last_action.2 (-1) 1)

/-- AUVEnv.observe: read los_dist and obst_range from the configuration,
assemble the six state channels, then run the obstacle loop over the
obstacle list, raising AttributeError for the first obstacle that reaches
the self.vessel.radius read. -/
def AUVEnv.observe (ops : RealOps) (c : Consts) (env : Env) : Except String (List ℚ) := do
  let los_dist ← getKey env.config.los_dist "los_dist"
  let obst_range ← getKey env.config.obst_range "obst_range"
  obstacleLoop ops obst_range env.vessel env.obstacles (baseObs ops c env los_dist)

/-- np.linalg.norm of vessel position minus path endpoint
(AUVEnv.step_reward). -/
def dist_to_endpoint (ops : RealOps) (env : Env) : ℚ :=
  ops.sqrt (((AUV2D.position env.vessel).1 - (PathObj.get_endpoint env.path).1) ^ 2
    + ((AUV2D.position env.vessel).2 - (PathObj.get_endpoint env.path).2) ^ 2)

/-- The sequential done checks at the head of AUVEnv.step_reward:
accumulated reward below -300, remaining arc length below 1, distance to
the endpoint below 10 (the obstacle-collision check is commented out in the
source). -/
def AUVEnv.doneCheck (ops : RealOps) (env : Env) : Bool :=
  let done := false
  let done := if done = false ∧ env.reward < -300 then true else done
  let done := if done = false ∧ |env.path_prog - env.path.length| < 1 then true else done
  let done := if done = false ∧ dist_to_endpoint ops env < 10 then true else done
  done

/-- The per-sector closeness loop of AUVEnv.step_reward, threading the
running step reward through all nsectors sectors. -/
def closenessLoop (reward_closeness : ℚ) (obs : List ℚ) (sr : ℚ) : ℚ :=
  (List.range nsectors).foldl
    (fun acc sector => acc + reward_closeness * (obs.getD (nstates + sector) 0) ^ 2) sr

/-- AUVEnv.step_reward: decide termination, then accumulate the progress
term (only when not done), the per-sector closeness term (always), and the
cross-track and surge terms (only when not done). -/
def AUVEnv.step_reward (ops : RealOps) (c : Consts) (env : Env) (obs : List ℚ)
    (delta_path_prog : ℚ) : Except String (Bool × ℚ) := do
  let done := AUVEnv.doneCheck ops env
  let sr1 ← if done = false then do
      let rds ← getKey env.config.reward_ds "reward_ds"
      pure (delta_path_prog * rds)
    else pure (0 : ℚ)
  let rc ← getKey env.config.reward_closeness "reward_closeness"
  let sr2 := closenessLoop rc obs sr1
  let sr3 ← if done = false then do
      let cs ← getKey env.config.cruise_speed "cruise_speed"
      let surge_error := obs.getD 0 0 - cs / AUV2D.max_speed c
      let cross_track_error := obs.getD 3 0
      let rcte ← getKey env.config.reward_cross_track_error "reward_cross_track_error"
      let rse ← getKey env.config.reward_surge_error "reward_surge_error"
      pure (sr2 + |cross_track_error| * rcte + max 0 (-surge_error) * rse)
    else pure sr2
  pure (done, sr3)

/-- The environment after the in-place mutations at the head of
AUVEnv.step: the action is stored, the vessel advanced one timestep, and
the progress recomputed as the closest arclength to the new position. -/
def AUVEnv.stepEnvMid (ops : RealOps) (c : Consts) (env : Env) (action : ℚ × ℚ) : Env :=
  let env1 := { env with last_action := action,
                         vessel := AUV2D.step ops c env.vessel action }
  { env1 with path_prog := PathObj.get_closest_arclength env1.path (AUV2D.position env1.vessel) }

/-- AUVEnv.step: store the action, advance the vessel, recompute the
progress as the closest arclength, observe, score the step, and accumulate
the step reward; returns (observation, step_reward, done) together with the
mutated environment. -/
def AUVEnv.step (ops : RealOps) (c : Consts) (env : Env) (action : ℚ × ℚ) :
    Except String (List ℚ × ℚ × Bool × Env) := do
  let envMid := AUVEnv.stepEnvMid ops c env action
  let delta_path_prog := envMid.path_prog - env.path_prog
  let obs ← AUVEnv.observe ops c envMid
  let dsr ← AUVEnv.step_reward ops c envMid obs delta_path_prog
  let env3 := { envMid with reward := envMid.reward + dsr.2 }
  pure (obs, dsr.2, dsr.1, env3)

/-- The TypeError raised when RandomCurveThroughOrigin.__init__ is called
without a value for its required parameter nwaypoints. -/
def rctoTypeError : String :=
  "TypeError: RandomCurveThroughOrigin.__init__ missing 1 required positional argument: nwaypoints"

/-- The midpoint-insertion loop of RandomCurveThroughOrigin.__init__: for
each pass, insert a perturbed point, the origin and a second perturbed
point between the retained head and tail of the waypoint list. -/
def rctoWaypoints (len : ℚ) (half : ℕ) (start endp : ℚ × ℚ)
    (init : List (ℚ × ℚ)) (rng : RNG) : List (ℚ × ℚ) × RNG :=
  (List.range half).foldl (fun acc (i : ℕ) =>
    let w := acc.1
    let (ra, rng1) := RNG.rand acc.2
    let np1 : ℚ × ℚ :=
      (((half : ℚ) - i) * start.1 / ((half : ℚ) + 1) + len / ((half : ℚ) + 1) * (ra - 1/2),
       ((half : ℚ) - i) * start.2 / ((half : ℚ) + 1) + len / ((half : ℚ) + 1) * (ra - 1/2))
    let (rb, rng2) := RNG.rand rng1
    let np2 : ℚ × ℚ :=
      (((half : ℚ) - i) * endp.1 / ((half : ℚ) + 1) + len / ((half : ℚ) + 1) * (rb - 1/2),
       ((half : ℚ) - i) * endp.2 / ((half : ℚ) + 1) + len / ((half : ℚ) + 1) * (rb - 1/2))
    (w.take (i + 1) ++ [np1, (0, 0), np2] ++ w.drop (w.length - (i + 1)), rng2))
    (init, rng)

/-- The call RandomCurveThroughOrigin(...) as written in AUVEnv.generate.
Its __init__ signature is (self, rng, nwaypoints, length=400): when no
value is supplied for nwaypoints the call raises a TypeError; otherwise the
random waypoints are built and handed to the ParamCurve fitting pipeline. -/
def callRandomCurveThroughOrigin (ops : RealOps) (scipy : SciPy) (rng : RNG)
    (nwaypoints : Option ℕ) : Except String (PathObj × RNG) :=
  match nwaypoints with
  | none => Except.error rctoTypeError
  | some n =>
    let len : ℚ := 400
    let (r0, rng1) := RNG.rand rng
    let angle_init := 2 * ops.pi * (r0 - 1/2)
    let start : ℚ × ℚ := (1/2 * len * ops.cos angle_init, 1/2 * len * ops.sin angle_init)
    let endp : ℚ × ℚ := (-start.1, -start.2)
    let (waypoints, rng2) := rctoWaypoints len (n / 2) start endp [start, endp] rng1
    Except.ok (scipy.paramCurve waypoints, rng2)

/-- The obstacle-placement loop of AUVEnv.generate. -/
def generateObstacles (path : PathObj) (nobst : ℕ) (rng : RNG) :
    List Obstacle × RNG :=
  (List.range nobst).foldl (fun acc _ =>
    let (ra, rng1) := RNG.rand acc.2
    let base := PathObj.call path (9/10 * path.length * (ra + 1/10))
    let (rb, rng2) := RNG.rand rng1
    let (rc, rng3) := RNG.rand rng2
    let position : ℚ × ℚ := (base.1 + 25 * (rb - 1/2), base.2 + 25 * (rc - 1/2))
    let (rd, rng4) := RNG.rand rng3
    let radius := 10 * (rd + 1/2)
    (acc.1 ++ [⟨position, radius⟩], rng4)) ([], rng)

/-- AUVEnv.generate: build the random path (the source passes only the rng
argument to RandomCurveThroughOrigin), perturb the path start into the
initial vessel pose, and scatter the configured number of obstacles. -/
def AUVEnv.generate (ops : RealOps) (scipy : SciPy) (cfg : Config)
    (rng : RNG) : Except String (AUV2D × PathObj × List Obstacle × (ℚ × ℚ) × RNG) := do
  let pr ← callRandomCurveThroughOrigin ops scipy rng none
  let path := pr.1
  let rng := pr.2
  let init_pos := PathObj.call path 0
  let init_angle := PathObj.get_direction ops path 0
  let (r1, rng) := RNG.rand rng
  let (r2, rng) := RNG.rand rng
  let init_pos := (init_pos.1 + 2 * (r1 - 1/2), init_pos.2 + 2 * (r2 - 1/2))
  let (r3, rng) := RNG.rand rng
  let init_angle := init_angle + 1/10 * (r3 - 1/2)
  let t_step ← getKey cfg.t_step "t_step"
  let vessel := AUV2D.init t_step init_pos init_angle 4
  let last_action : ℚ × ℚ := (0, 0)
  let nobst ← getKey cfg.nobstacles "nobstacles"
  let (obstacles, rng) := generateObstacles path nobst rng
  pure (vessel, path, obstacles, last_action, rng)

/-- AUVEnv.reset: clear the episode state, generate a fresh path, vessel
and obstacle set, and return the initial observation (the seed plumbing of
gym is out of scope; the random state is an explicit argument). -/
def AUVEnv.reset (ops : RealOps) (c : Consts) (scipy : SciPy) (cfg : Config)
    (rng : RNG) : Except String (List ℚ × Env) := do
  let g ← AUVEnv.generate ops scipy cfg rng
  let env : Env := { config := cfg, vessel := g.1, path := g.2.1,
                     np_random := g.2.2.2.2, obstacles := g.2.2.1,
                     reward := 0, path_prog := 0, last_action := g.2.2.2.1 }
  let obs ← AUVEnv.observe ops c env
  pure (obs, env)

/-- getD after set at a different index. -/
theorem getD_set_ne (l : List ℚ) (i j : ℕ) (a : ℚ) (h : i ≠ j) :
    (l.set i a).getD j 0 = l.getD j 0 := by
  induction l generalizing i j with
  | nil => simp [List.set]
  | cons hd tl ih =>
    cases i with
    | zero =>
      cases j with
      | zero => exact absurd rfl h
      | succ m => simp [List.set, List.getD]
    | succ n =>
      cases j with
      | zero => simp [List.set, List.getD]
      | succ m =>
        simp only [List.set, List.getD_cons_succ]
        exact ih n m (fun hnm => h (by omega))

/-- A concrete instantiation of the transcendental primitives used to
evaluate the embedding on closed inputs. -/
def ops1 : RealOps :=
  { pi := 3, sin := fun _ => 0, cos := fun _ => 1,
    atan2 := fun _ _ => 0, sqrt := fun _ => 100 }

/-- A concrete instantiation of the physical constants. -/
def c1 : Consts :=
  { MAX_SPEED := 10, THRUST_MIN_AUV := 0, THRUST_MAX_AUV := 0, RUDDER_MAX_AUV := 0,
    M_inv := fun v => v, B := fun _ _ => ⟨0, 0, 0⟩, D := fun _ _ => ⟨0, 0, 0⟩,
    C := fun _ _ => ⟨0, 0, 0⟩, L := fun _ _ => ⟨0, 0, 0⟩ }

/-- A concrete random stream. -/
def rng0 : RNG := { seq := fun _ => 1/2, idx := 0 }

/-- A concrete opaque curve-fitting oracle. -/
def scipy1 : SciPy :=
  { paramCurve := fun _ =>
      { path_coords := fun _ => (0, 100), path_derivatives := fun _ => (1, 0),
        length := 1000, closest := fun _ => 500 } }

/-- A concrete fitted path. -/
def path1 : PathObj :=
  { path_coords := fun _ => (0, 100), path_derivatives := fun _ => (1, 0),
    length := 1000, closest := fun _ => 500 }

/-- A concrete vessel at the origin with zero heading and velocity. -/
def vessel1 : AUV2D := AUV2D.init 1 (0, 0) 0 4

/-- A complete configuration whose cross-track weight is large and
negative. -/
def cfg1 : Config :=
  { reward_ds := some 0, reward_closeness := some 0, reward_surge_error := some 0,
    reward_cross_track_error := some (-400), reward_collision := some 0,
    nobstacles := some 0, los_dist := some 1, obst_range := some 10,
    t_step := some 1, cruise_speed := some 0 }

/-- A concrete mid-episode environment state with zero accumulated
reward. -/
def env1 : Env :=
  { config := cfg1, vessel := vessel1, path := path1, np_random := rng0,
    obstacles := [], reward := 0, path_prog := 500, last_action := (0, 0) }

/-- Claim C1: the spec and the environment docstring promise that every
reset regenerates the path, obstacles and vessel and returns the initial
observation; in the source, however, AUVEnv.generate calls
RandomCurveThroughOrigin passing only the rng, while its __init__ requires
the positional parameter nwaypoints, so every reset (including the one in
AUVEnv.__init__) raises a TypeError instead of returning an observation. -/
theorem reset_raises_nwaypoints_type_error (ops : RealOps) (c : Consts)
    (scipy : SciPy) (cfg : Config) (rng : RNG) :
    AUVEnv.reset ops c scipy cfg rng = Except.error rctoTypeError := rfl

/-- Claim C2 (counterexample): a concrete step on which the accumulated
reward first drops below -300 (from 0 to -400) yet the returned done flag
is false, because step_reward consults the accumulated reward before the
current step reward is added. -/
theorem crossing_step_returns_done_false :
    env1.reward = 0 ∧ ((-400 : ℚ) < -300) ∧
    (AUVEnv.step ops1 c1 env1 (0, 0)).map (fun t => (t.2.2.1, t.2.2.2.reward)) =
      Except.ok (false, -400) := by
  refine ⟨rfl, by norm_num, ?_⟩
  with_unfolding_all rfl

/-- If the accumulated reward is already below -300, the first check of
step_reward sets done and the later checks keep it. -/
theorem doneCheck_of_reward_lt (ops : RealOps) (env : Env) (h : env.reward < -300) :
    AUVEnv.doneCheck ops env = true := by
  unfold AUVEnv.doneCheck
  simp [h]

/-- Whenever step_reward returns, its done component is exactly the value
of the sequential done checks. -/
theorem step_reward_done_eq (ops : RealOps) (c : Consts) (env : Env) (obs : List ℚ)
    (delta : ℚ) (d : Bool) (r : ℚ)
    (h : AUVEnv.step_reward ops c env obs delta = Except.ok (d, r)) :
    d = AUVEnv.doneCheck ops env := by
  unfold AUVEnv.step_reward at h
  cases hrds : env.config.reward_ds <;> cases hrc : env.config.reward_closeness <;>
    cases hcs : env.config.cruise_speed <;>
    cases hrcte : env.config.reward_cross_track_error <;>
    cases hrse : env.config.reward_surge_error <;>
    cases hdc : AUVEnv.doneCheck ops env <;>
    simp_all [getKey, bind, Except.bind, pure, Except.pure]

/-- Claim C2 (amended): the divergence guard fires on the step after the
threshold is crossed, not on the crossing step itself: step_reward consults
the accumulated reward from before the current step, so any step entered
with accumulated reward below -300 returns done = true, while the step on
which the accumulated reward (including the current step reward) first
drops below -300 returns done = false. -/
theorem step_done_when_prior_reward_below (ops : RealOps) (c : Consts)
    (env : Env) (action : ℚ × ℚ) (h : env.reward < -300) (obs : List ℚ) (r : ℚ)
    (d : Bool) (envAfter : Env)
    (hstep : AUVEnv.step ops c env action = Except.ok (obs, r, d, envAfter)) :
    d = true := by
  simp only [AUVEnv.step, bind, Except.bind] at hstep
  cases hobs : AUVEnv.observe ops c (AUVEnv.stepEnvMid ops c env action) with
  | error e => rw [hobs] at hstep; cases hstep
  | ok obsv =>
    simp only [hobs] at hstep
    cases hsr : AUVEnv.step_reward ops c (AUVEnv.stepEnvMid ops c env action) obsv
        ((AUVEnv.stepEnvMid ops c env action).path_prog - env.path_prog) with
    | error e => rw [hsr] at hstep; cases hstep
    | ok dr =>
      simp only [hsr, pure, Except.pure, Except.ok.injEq, Prod.mk.injEq] at hstep
      have hd : d = dr.1 := hstep.2.2.1.symm
      have hmid : (AUVEnv.stepEnvMid ops c env action).reward = env.reward := rfl
      have hdone := step_reward_done_eq ops c (AUVEnv.stepEnvMid ops c env action) obsv
        ((AUVEnv.stepEnvMid ops c env action).path_prog - env.path_prog) dr.1 dr.2 (by rw [hsr])
      rw [hd, hdone, doneCheck_of_reward_lt ops _ (by rw [hmid]; exact h)]

/-- A concrete environment entered with accumulated reward already below
the divergence threshold. -/
def env2 : Env := { env1 with reward := -400 }

/-- The concrete result of stepping env2 (the step succeeds, so the match
is exercised on the ok branch). -/
def step2result : List ℚ × ℚ × Bool × Env :=
  match AUVEnv.step ops1 c1 env2 (0, 0) with
  | Except.ok t => t
  | Except.error _ => ([], 0, false, env2)

/-- Witness for the amended claim C2 at a concrete input. -/
theorem step_done_when_prior_reward_below_witness :
    env2.reward < -300 ∧ step2result.2.2.1 = true := by
  refine ⟨by norm_num [env2, env1], ?_⟩
  exact step_done_when_prior_reward_below ops1 c1 env2 (0, 0)
    (by norm_num [env2, env1]) step2result.1 step2result.2.1 step2result.2.2.1
    step2result.2.2.2 (by with_unfolding_all rfl)

/-- Threading an initial accumulator through an additive fold is the same
as adding it to the fold from zero. -/
theorem foldl_add_shift (f : ℕ → ℚ) (l : List ℕ) (sr : ℚ) :
    l.foldl (fun acc i => acc + f i) sr = sr + l.foldl (fun acc i => acc + f i) 0 := by
  induction l generalizing sr with
  | nil => simp
  | cons hd tl ih =>
    simp only [List.foldl_cons]
    rw [ih (sr + f hd), ih (0 + f hd)]
    ring

/-- The closeness loop equals its starting reward plus the pure per-sector
sum. -/
theorem closenessLoop_shift (rc : ℚ) (obs : List ℚ) (sr : ℚ) :
    closenessLoop rc obs sr = sr + closenessLoop rc obs 0 :=
  foldl_add_shift (fun sector => rc * (obs.getD (nstates + sector) 0) ^ 2) (List.range nsectors) sr

/-- Claim C3: whenever step_reward returns, the step reward is the
per-sector quadratic closeness sum (accumulated over all nsectors sectors
unconditionally, even on a terminating step) plus, only when the step does
not terminate, the progress term, the cross-track term and the surge
term. -/
theorem step_reward_decomposition (ops : RealOps) (c : Consts) (env : Env)
    (obs : List ℚ) (delta : ℚ) (rds rc cs rcte rse : ℚ)
    (h1 : env.config.reward_ds = some rds)
    (h2 : env.config.reward_closeness = some rc)
    (h3 : env.config.cruise_speed = some cs)
    (h4 : env.config.reward_cross_track_error = some rcte)
    (h5 : env.config.reward_surge_error = some rse)
    (d : Bool) (r : ℚ)
    (h : AUVEnv.step_reward ops c env obs delta = Except.ok (d, r)) :
    r = closenessLoop rc obs 0
        + (if d = true then 0
           else delta * rds + |obs.getD 3 0| * rcte
                + max 0 (-(obs.getD 0 0 - cs / AUV2D.max_speed c)) * rse) := by
  unfold AUVEnv.step_reward at h
  cases hdc : AUVEnv.doneCheck ops env with
  | false =>
    simp_all [getKey, bind, Except.bind, pure, Except.pure]
    rw [← h.2, closenessLoop_shift, div_eq_mul_inv]
    ring
  | true =>
    simp_all [getKey, bind, Except.bind, pure, Except.pure]

/-- A concrete observation vector with a nonzero cross-track channel. -/
def obs3c : List ℚ := [1, 0, 0, -2, 0, 0, 1/2, 0, 0, 0, 0, 0, 0, 0]

/-- Witness for claim C3 at a concrete input. -/
theorem step_reward_decomposition_witness :
    (-800 : ℚ) = closenessLoop 0 obs3c 0
      + (if (false : Bool) = true then 0
         else 0 * 0 + |obs3c.getD 3 0| * (-400)
              + max 0 (-(obs3c.getD 0 0 - 0 / AUV2D.max_speed c1)) * 0) :=
  step_reward_decomposition ops1 c1 env1 obs3c 0 0 0 0 (-400) 0
    rfl rfl rfl rfl rfl false (-800) (by with_unfolding_all rfl)

/-- Claim C7: the vehicle dynamics contain no hidden randomness: two runs
from identical initial vehicle states under identical action sequences end
in identical vehicle states (histories included). -/
theorem dynamics_deterministic (ops : RealOps) (c : Consts) (v1 v2 : AUV2D)
    (acts1 acts2 : List (ℚ × ℚ)) (hv : v1 = v2) (ha : acts1 = acts2) :
    AUV2D.stepN ops c v1 acts1 = AUV2D.stepN ops c v2 acts2 := by
  rw [hv, ha]

/-- Witness for claim C7 at a concrete input. -/
theorem dynamics_deterministic_witness :
    vessel1 = vessel1 ∧
    AUV2D.stepN ops1 c1 vessel1 [(1, 0), (1/2, 1)] =
      AUV2D.stepN ops1 c1 vessel1 [(1, 0), (1/2, 1)] :=
  ⟨rfl, dynamics_deterministic ops1 c1 vessel1 vessel1
    [(1, 0), (1/2, 1)] [(1, 0), (1/2, 1)] rfl rfl⟩

/-- Claim C9: a step never mutates the path object, the obstacle set, the
configuration or the random state: whenever step returns, the environment
it hands back agrees with the input environment on all four (only the
vessel, the progress, the accumulated reward and the last action are
updated by step). -/
theorem step_preserves_path_and_obstacles (ops : RealOps) (c : Consts)
    (env : Env) (action : ℚ × ℚ) :
    (AUVEnv.step ops c env action).map
        (fun t => (t.2.2.2.path, t.2.2.2.obstacles, t.2.2.2.config, t.2.2.2.np_random)) =
    (AUVEnv.step ops c env action).map
        (fun _ => (env.path, env.obstacles, env.config, env.np_random)) := by
  simp only [AUVEnv.step, bind, Except.bind]
  cases AUVEnv.observe ops c (AUVEnv.stepEnvMid ops c env action) with
  | error e => rfl
  | ok obsv =>
    dsimp only
    cases AUVEnv.step_reward ops c (AUVEnv.stepEnvMid ops c env action) obsv
        ((AUVEnv.stepEnvMid ops c env action).path_prog - env.path_prog) with
    | error e => rfl
    | ok dr => rfl

/-- Claim C6: the principal-angle wrap lands in the half-open interval from
-pi (exclusive) to pi (inclusive), and is 2-pi-periodic. -/
theorem princip_range_and_periodic (ops : RealOps) (theta : ℚ) (hpi : 0 < ops.pi) :
    (-ops.pi < princip ops theta ∧ princip ops theta ≤ ops.pi) ∧
    princip ops (theta + 2 * ops.pi) = princip ops theta :=
  ⟨princip_mem ops theta hpi, princip_periodic ops theta hpi⟩

/-- Witness for claim C6 at a concrete input. -/
theorem princip_range_and_periodic_witness :
    0 < ops1.pi ∧
    ((-ops1.pi < princip ops1 7 ∧ princip ops1 7 ≤ ops1.pi) ∧
      princip ops1 (7 + 2 * ops1.pi) = princip ops1 7) :=
  ⟨by norm_num [ops1], princip_range_and_periodic ops1 7 (by norm_num [ops1])⟩

/-- getD of a replicated zero list is zero at every index. -/
theorem getD_replicate_zero (n i : ℕ) : (List.replicate n (0:ℚ)).getD i 0 = 0 := by
  induction n generalizing i with
  | zero => simp [List.getD]
  | succ m ih =>
    cases i with
    | zero => simp [List.replicate, List.getD]
    | succ k =>
      rw [List.replicate, List.getD_cons_succ]
      exact ih k

/-- For a remapped bearing in the unit half-open interval, the sector
bucket index lies among the nsectors sector slots. -/
theorem isectorCalc_bounds (ang : ℚ) (h0 : 0 ≤ ang) (h1 : ang < 1) :
    nstates ≤ isectorCalc ang ∧ isectorCalc ang < nstates + nsectors := by
  unfold isectorCalc nstates nsectors
  have hf0 : 0 ≤ Int.floor (ang * ((8:ℕ):ℚ)) := by
    apply Int.floor_nonneg.mpr
    positivity
  have hf8 : Int.floor (ang * ((8:ℕ):ℚ)) < 8 := by
    apply Int.floor_lt.mpr
    push_cast
    nlinarith
  omega

/-- The sector channels of the assembled state-channel vector start at
zero. -/
theorem baseObs_getD_sector (ops : RealOps) (c : Consts) (env : Env) (los_dist : ℚ)
    (j : ℕ) :
    (baseObs ops c env los_dist).getD (nstates + j) 0 = 0 := by
  unfold baseObs nstates
  rw [getD_set_ne _ _ _ _ (by omega), getD_set_ne _ _ _ _ (by omega),
    getD_set_ne _ _ _ _ (by omega), getD_set_ne _ _ _ _ (by omega),
    getD_set_ne _ _ _ _ (by omega), getD_set_ne _ _ _ _ (by omega),
    getD_replicate_zero]

/-- Transcendental primitives placing one obstacle in sector 4. -/
def ops5 : RealOps :=
  { pi := 3, sin := fun _ => 0, cos := fun _ => 1,
    atan2 := fun _ _ => 0, sqrt := fun _ => 1 }

/-- A concrete environment with a single obstacle one unit ahead. -/
def envW5 : Env := { env1 with obstacles := [⟨(0, 1), 5⟩] }

/-- Claim C10: for every remapped bearing in the unit half-open interval
the guarded sector index lies among the sector slots (indices 6 to 13 with
nstates = 6 and nsectors = 8), so the obstacle loop never writes outside
the sector channels, and an obstacle whose remapped bearing equals exactly
1 is skipped entirely rather than assigned to a sector. -/
theorem sector_index_safe :
    (∀ ang : ℚ, 0 ≤ ang → ang < 1 →
      nstates ≤ isectorCalc ang ∧ isectorCalc ang < nstates + nsectors) ∧
    (∀ (ops : RealOps) (obst_range : ℚ) (v : AUV2D) (obs : List ℚ) (o : Obstacle),
      angCalc ops v o = 1 → processObstacle ops obst_range v obs o = obs) := by
  constructor
  · exact fun ang h0 h1 => isectorCalc_bounds ang h0 h1
  · intro ops obst_range v obs o hang
    unfold processObstacle
    split_ifs with hd ha hl
    · rw [hang] at ha
      exact absurd ha.2 (by norm_num)
    all_goals rfl

/-- Transcendental primitives making the remapped bearing exactly one. -/
def ops10 : RealOps :=
  { pi := 3, sin := fun _ => 0, cos := fun _ => 1,
    atan2 := fun _ _ => 3, sqrt := fun _ => 1 }

/-- Witness for claim C10 at concrete inputs. -/
theorem sector_index_safe_witness :
    ((0:ℚ) ≤ 1/2 ∧ ((1/2):ℚ) < 1 ∧
      nstates ≤ isectorCalc (1/2) ∧ isectorCalc (1/2) < nstates + nsectors) ∧
    (angCalc ops10 vessel1 ⟨(0, 1), 5⟩ = 1 ∧
      processObstacle ops10 10 vessel1 (List.replicate 14 0) ⟨(0, 1), 5⟩ =
        List.replicate 14 0) := by
  have h0 : ((0:ℚ) ≤ 1/2) := by norm_num
  have h1 : (((1:ℚ)/2) < 1) := by norm_num
  have hang : angCalc ops10 vessel1 ⟨(0, 1), 5⟩ = 1 := by with_unfolding_all rfl
  refine ⟨⟨h0, h1, ?_⟩, hang, ?_⟩
  · exact sector_index_safe.1 (1/2) h0 h1
  · exact sector_index_safe.2 ops10 10 vessel1 (List.replicate 14 0) ⟨(0, 1), 5⟩ hang

/-- Whenever the obstacle loop returns at all, no obstacle reached the
radius read, and the observation is handed back unchanged: in the source
the sector write at auv_env.py lines 243-244 is unreachable. -/
theorem obstacleLoop_ok_eq (ops : RealOps) (obst_range : ℚ) (v : AUV2D)
    (obstacles : List Obstacle) (obs obs' : List ℚ)
    (h : obstacleLoop ops obst_range v obstacles obs = Except.ok obs') :
    obs' = obs := by
  induction obstacles generalizing obs with
  | nil =>
    unfold obstacleLoop at h
    exact (Except.ok.inj h).symm
  | cons o rest ih =>
    unfold obstacleLoop processObstacleRun at h
    by_cases h1 : distCalc ops v o < obst_range + o.radius
    · rw [if_pos h1] at h
      by_cases h2 : 0 ≤ angCalc ops v o ∧ angCalc ops v o < 1
      · rw [if_pos h2] at h
        simp at h
      · rw [if_neg h2] at h
        exact ih obs h
    · rw [if_neg h1] at h
      exact ih obs h

/-- Any obstacle inside the detection range whose remapped bearing passes
the unit-interval guard makes the obstacle loop raise the AttributeError
of the radius read. -/
theorem obstacleLoop_error_of_mem (ops : RealOps) (obst_range : ℚ) (v : AUV2D)
    (obstacles : List Obstacle) (o : Obstacle) (hmem : o ∈ obstacles)
    (hd : distCalc ops v o < obst_range + o.radius)
    (ha0 : 0 ≤ angCalc ops v o) (ha1 : angCalc ops v o < 1) :
    ∀ obs : List ℚ,
      obstacleLoop ops obst_range v obstacles obs = Except.error attributeErrorRadius := by
  revert hmem
  induction obstacles with
  | nil =>
    intro hmem
    cases hmem
  | cons p rest ih =>
    intro hmem obs
    unfold obstacleLoop processObstacleRun
    by_cases h1 : distCalc ops v p < obst_range + p.radius
    · rw [if_pos h1]
      by_cases h2 : 0 ≤ angCalc ops v p ∧ angCalc ops v p < 1
      · rw [if_pos h2]
      · rw [if_neg h2]
        rcases List.mem_cons.mp hmem with he | hm
        · exact absurd ⟨he ▸ ha0, he ▸ ha1⟩ h2
        · exact ih hm obs
    · rw [if_neg h1]
      rcases List.mem_cons.mp hmem with he | hm
      · exact absurd (he ▸ hd) h1
      · exact ih hm obs

/-- Claim C5 (the code evaluated at the failing inputs): the claim
describes the closeness computation of auv_env.py lines 238-244, but for
every obstacle that passes the range and bearing guards the source instead
raises AttributeError at line 238 - the read self.vessel.radius has no
backing attribute, since AUV2D stores the documented radius only under the
name width - so no closeness is ever computed, no sector maximum is ever
formed, and observe does not return. -/
theorem observe_attribute_error_on_in_range_obstacle (ops : RealOps) (c : Consts)
    (env : Env) (ld orange : ℚ) (h1 : env.config.los_dist = some ld)
    (h2 : env.config.obst_range = some orange) (o : Obstacle)
    (hmem : o ∈ env.obstacles)
    (hd : distCalc ops env.vessel o < orange + o.radius)
    (ha0 : 0 ≤ angCalc ops env.vessel o) (ha1 : angCalc ops env.vessel o < 1) :
    AUVEnv.observe ops c env = Except.error attributeErrorRadius := by
  unfold AUVEnv.observe
  rw [h1, h2]
  simp only [getKey, bind, Except.bind]
  exact obstacleLoop_error_of_mem ops orange env.vessel env.obstacles o hmem hd ha0 ha1
    (baseObs ops c env ld)

/-- Witness for claim C5 at the concrete failing input: one obstacle one
unit ahead, well inside the detection range, bearing remapped to 1/2. -/
theorem observe_attribute_error_on_in_range_obstacle_witness :
    AUVEnv.observe ops5 c1 envW5 = Except.error attributeErrorRadius :=
  observe_attribute_error_on_in_range_obstacle ops5 c1 envW5 1 10 rfl rfl
    ⟨(0, 1), 5⟩ (by with_unfolding_all decide) (by with_unfolding_all decide)
    (by with_unfolding_all decide) (by with_unfolding_all decide)

/-- Claim C4 (the code evaluated at the failing input, together with the
parts of the claim the source does satisfy): (1) an obstacle whose
Euclidean distance from the vehicle is at least obst_range plus its radius
fails the range guard, so its loop iteration returns the observation
unchanged - it contributes exactly zero and never reaches the faulty
radius read (hypotheses: the abstract sqrt is correct at the queried value
and sine and cosine are unit-normalized at the rotation angle, which make
the computed in-frame distance the Euclidean one); (2) whenever observe
actually returns, the six state channels are clipped into their documented
bounds and every sector channel is exactly zero, because the sector write
is unreachable - any obstacle that would reach it raises AttributeError
first; (3) at a concrete configuration with one in-range obstacle, observe
raises the AttributeError of the radius read instead of returning a
bounded observation. -/
theorem observe_bounds_collapse_attribute_error :
    (∀ (ops : RealOps) (orange : ℚ) (v : AUV2D) (obs : List ℚ) (o : Obstacle),
      0 ≤ distCalc ops v o →
      distCalc ops v o ^ 2 =
        (dvecCalc ops v o).x ^ 2 + (dvecCalc ops v o).y ^ 2 + (dvecCalc ops v o).z ^ 2 →
      ops.sin (-(AUV2D.heading v)) ^ 2 + ops.cos (-(AUV2D.heading v)) ^ 2 = 1 →
      (orange + o.radius) ^ 2 ≤
        (o.position.1 - (AUV2D.position v).1) ^ 2 +
          (o.position.2 - (AUV2D.position v).2) ^ 2 →
      processObstacleRun ops orange v obs o = Except.ok obs) ∧
    (∀ (ops : RealOps) (c : Consts) (env : Env) (ld orange : ℚ) (obs' : List ℚ),
      env.config.los_dist = some ld → env.config.obst_range = some orange →
      AUVEnv.observe ops c env = Except.ok obs' →
      ((0 ≤ obs'.getD 0 0 ∧ obs'.getD 0 0 ≤ 1) ∧
       (-1 ≤ obs'.getD 1 0 ∧ obs'.getD 1 0 ≤ 1) ∧
       (-1 ≤ obs'.getD 2 0 ∧ obs'.getD 2 0 ≤ 1) ∧
       (-1 ≤ obs'.getD 3 0 ∧ obs'.getD 3 0 ≤ 1) ∧
       (0 ≤ obs'.getD 4 0 ∧ obs'.getD 4 0 ≤ 1) ∧
       (-1 ≤ obs'.getD 5 0 ∧ obs'.getD 5 0 ≤ 1) ∧
       (∀ j, j < nsectors → obs'.getD (nstates + j) 0 = 0))) ∧
    AUVEnv.observe ops5 c1 envW5 = Except.error attributeErrorRadius := by
  refine ⟨?_, ?_, ?_⟩
  · intro ops orange v obs o hs1 hs2 htrig hfar
    have hxyz : (dvecCalc ops v o).x ^ 2 + (dvecCalc ops v o).y ^ 2 +
        (dvecCalc ops v o).z ^ 2 =
        (o.position.1 - (AUV2D.position v).1) ^ 2 +
          (o.position.2 - (AUV2D.position v).2) ^ 2 := by
      dsimp only [dvecCalc, Rzyx]
      linear_combination ((o.position.1 - (AUV2D.position v).1) ^ 2 +
        (o.position.2 - (AUV2D.position v).2) ^ 2) * htrig
    have hdist_ge : ¬ distCalc ops v o < orange + o.radius := by
      intro hlt
      nlinarith [mul_self_lt_mul_self hs1 hlt, hs2, hxyz, hfar]
    unfold processObstacleRun
    rw [if_neg hdist_ge]
  · intro ops c env ld orange obs' h1 h2 hobs
    unfold AUVEnv.observe at hobs
    rw [h1, h2] at hobs
    simp only [getKey, bind, Except.bind] at hobs
    have hEq := obstacleLoop_ok_eq ops orange env.vessel env.obstacles
      (baseObs ops c env ld) obs' hobs
    subst hEq
    exact ⟨np_clip_mem _ 0 1 (by norm_num), np_clip_mem _ (-1) 1 (by norm_num),
      np_clip_mem _ (-1) 1 (by norm_num), np_clip_mem _ (-1) 1 (by norm_num),
      np_clip_mem _ 0 1 (by norm_num), np_clip_mem _ (-1) 1 (by norm_num),
      fun j hj => baseObs_getD_sector ops c env ld j⟩
  · with_unfolding_all rfl

/-- The concrete observation produced for env1 (no obstacles, so the loop
raises nothing and returns). -/
def observe4result : List ℚ :=
  match AUVEnv.observe ops1 c1 env1 with
  | Except.ok l => l
  | Except.error _ => []

/-- Witness for claim C4 at concrete inputs: the far-obstacle iteration
(100 units away with obst_range 10 and radius 5) returns the observation
unchanged, and on the obstacle-free environment observe returns with
channel 0 in bounds and sector channel 3 equal to zero. -/
theorem observe_bounds_collapse_attribute_error_witness :
    processObstacleRun ops1 10 env1.vessel (List.replicate 14 0) ⟨(0, 100), 5⟩ =
      Except.ok (List.replicate 14 0) ∧
    (0 ≤ observe4result.getD 0 0 ∧ observe4result.getD 0 0 ≤ 1) ∧
    observe4result.getD (nstates + 3) 0 = 0 := by
  refine ⟨?_, ?_, ?_⟩
  · exact observe_bounds_collapse_attribute_error.1 ops1 10 env1.vessel
      (List.replicate 14 0) ⟨(0, 100), 5⟩ (by with_unfolding_all decide)
      (by with_unfolding_all rfl) (by with_unfolding_all rfl)
      (by with_unfolding_all decide)
  · exact (observe_bounds_collapse_attribute_error.2.1 ops1 c1 env1 1 10
      observe4result rfl rfl (by with_unfolding_all rfl)).1
  · exact (observe_bounds_collapse_attribute_error.2.1 ops1 c1 env1 1 10
      observe4result rfl rfl (by with_unfolding_all rfl)).2.2.2.2.2.2 3
      (by norm_num [nsectors])

/-- A configuration missing exactly the reward_ds key. -/
def cfg8 : Config := { cfg1 with reward_ds := none }

/-- A mid-episode environment carrying the configuration that misses
reward_ds. -/
def env8 : Env := { env1 with config := cfg8 }

/-- Claim C8 (counterexample): with every recognized option present except
reward_ds, construction does not fail with an error identifying the missing
key (it fails with the unrelated TypeError from the path constructor), and
the missing option surfaces later, inside step_reward, as its KeyError. -/
theorem missing_reward_ds_counterexample :
    cfg8.reward_ds = none ∧
    AUVEnv.reset ops1 c1 scipy1 cfg8 rng0 = Except.error rctoTypeError ∧
    rctoTypeError ≠ "KeyError: reward_ds" ∧
    AUVEnv.step_reward ops1 c1 env8 obs3c 0 = Except.error "KeyError: reward_ds" := by
  refine ⟨rfl, rfl, by decide, ?_⟩
  with_unfolding_all rfl

/-- Claim C8 (amended): the configuration is never validated at
construction: reset always fails with the TypeError of the path constructor
call, for every configuration, so a missing key is never reported at
construction time; the reward_ds weight is read only inside step_reward,
where, on any non-terminating step, its absence surfaces as the KeyError
naming it. -/
theorem config_missing_keys_surface_late :
    (∀ (ops : RealOps) (c : Consts) (scipy : SciPy) (cfg : Config) (rng : RNG),
      AUVEnv.reset ops c scipy cfg rng = Except.error rctoTypeError) ∧
    (∀ (ops : RealOps) (c : Consts) (env : Env) (obs : List ℚ) (delta : ℚ),
      env.config.reward_ds = none → AUVEnv.doneCheck ops env = false →
      AUVEnv.step_reward ops c env obs delta = Except.error "KeyError: reward_ds") := by
  constructor
  · intro ops c scipy cfg rng
    rfl
  · intro ops c env obs delta hrds hdc
    unfold AUVEnv.step_reward
    rw [hdc, hrds]
    simp [getKey, bind, Except.bind]

/-- Witness for the amended claim C8 at concrete inputs. -/
theorem config_missing_keys_surface_late_witness :
    env8.config.reward_ds = none ∧
    AUVEnv.doneCheck ops1 env8 = false ∧
    AUVEnv.reset ops1 c1 scipy1 cfg8 rng0 = Except.error rctoTypeError ∧
    AUVEnv.step_reward ops1 c1 env8 obs3c 0 = Except.error "KeyError: reward_ds" := by
  refine ⟨rfl, by with_unfolding_all rfl, ?_, ?_⟩
  · exact config_missing_keys_surface_late.1 ops1 c1 scipy1 cfg8 rng0
  · exact config_missing_keys_surface_late.2 ops1 c1 env8 obs3c 0 rfl
      (by with_unfolding_all rfl)
